import Mathlib

/-!
# Verification of the Technical-Trader MACD / crossover pipeline

A shallow embedding of `src/utils/helper.py` (indicator engine, crossover
detector) and the dispatch in `src/app.py`.

Modelling conventions:
* Prices and the EMA/MACD arithmetic are exact rationals (`ℚ`); the claims are
  about the real-arithmetic idealization of the float code.
* A pandas float cell that can be NaN is modelled as `Option ℝ` with `none` for
  NaN.  Division of a column by its standard deviation produces NaN exactly
  when the sample variance is zero (then every numerator is zero as well, and
  `0.0 / 0.0 = NaN`), or when the variance itself is NaN (fewer than two rows,
  `ddof = 1`); both cases are exactly `svarQ = 0` below.
* `Series.ewm(span=w, adjust=False)` validates `span ≥ 1` and raises
  `ValueError` otherwise; this is the only exception the helper functions can
  raise, and is modelled with `Except PyError`.
* Comparisons against NaN are `False` in pandas, modelled by `optLt`.
-/

/-- The Python exceptions relevant to this program. -/
inductive PyError where
  | typeError : PyError
  | valueError : PyError
deriving DecidableEq

/-- Python's built-in `tuple` accepts at most one positional argument (an
iterable); calling it with `n ≥ 2` arguments raises `TypeError`.  The argument
count is all that matters here. -/
def tupleCall (args : ℕ) : Except PyError Unit :=
  if args ≤ 1 then .ok () else .error .typeError

/-- Executing `def get_fundamentals ...` (helper.py line 195) evaluates its
return annotation `tuple(pd.DataFrame, pd.DataFrame, pd.DataFrame)` at
definition time: a call of `tuple` with three arguments. -/
def get_fundamentals_def : Except PyError Unit := tupleCall 3

/-- Importing `utils/helper.py` executes its top level.  The earlier
definitions only evaluate plain-name annotations and succeed; the module then
reaches `get_fundamentals`, whose definition is evaluated here. -/
def import_helper : Except PyError Unit := get_fundamentals_def

/-- `app.py` line 10 runs `from utils.helper import *` before any computation;
a failure of the import aborts the program, the rest is never reached. -/
def run_app : Except PyError Unit := do
  let _ ← import_helper
  .ok ()

/-- `α = 2 / (span + 1)`: the smoothing factor pandas derives from
`ewm(span=w)`. -/
def alphaOf (span : ℕ) : ℚ := 2 / (span + 1)

/-- Tail of the recursive (`adjust=False`) EMA: `prev` is the previous output
value, each step emits `a * x + (1 - a) * prev`. -/
def ewmAux (a : ℚ) (prev : ℚ) : List ℚ → List ℚ
  | [] => []
  | x :: xs => (a * x + (1 - a) * prev) :: ewmAux a (a * x + (1 - a) * prev) xs

/-- `Series.ewm(span, adjust=False).mean()`: the first output equals the first
input, then the recursion of `ewmAux`. -/
def ewm (a : ℚ) : List ℚ → List ℚ
  | [] => []
  | x :: xs => x :: ewmAux a x xs

/-- helper.py lines 32–38: `MACD = short_ema - long_ema`, pointwise over the
Close column. -/
def macdCore (close : List ℚ) (sw lw : ℕ) : List ℚ :=
  List.zipWith (fun a b => a - b) (ewm (alphaOf sw) close) (ewm (alphaOf lw) close)

/-- helper.py line 41: `Signal_Line = MACD.ewm(span=signal_window,
adjust=False).mean()`. -/
def signalCore (macd : List ℚ) (sg : ℕ) : List ℚ := ewm (alphaOf sg) macd

/-- `Series.mean()` over the exact rationals. -/
def meanQ (l : List ℚ) : ℚ := l.sum / l.length

/-- `Series.var()` (pandas default `ddof = 1`).  pandas yields NaN for fewer
than two rows; that case is folded into the value `0`, since it leads to the
same all-NaN z-scores as a zero variance (see `zscoreCol`). -/
def svarQ (l : List ℚ) : ℚ :=
  if l.length < 2 then 0
  else (l.map (fun x => (x - meanQ l) ^ 2)).sum / ((l.length : ℚ) - 1)

/-- `(col - col.mean()) / col.std()` (helper.py lines 87, 90): when the sample
variance is zero (constant column, or fewer than two rows) the divisor is
`0.0` (or NaN) and every numerator is `0.0`, so every cell becomes NaN;
otherwise the exact z-score. -/
noncomputable def zscoreCol (l : List ℚ) : List (Option ℝ) :=
  if svarQ l = 0 then l.map (fun _ => none)
  else l.map (fun x => some (((x - meanQ l : ℚ) : ℝ) / Real.sqrt ((svarQ l : ℚ) : ℝ)))

/-- The cumulative distribution function of the standard normal distribution
(`scipy.stats.norm.cdf`). -/
noncomputable def stdNormalCdf (z : ℝ) : ℝ :=
  ProbabilityTheory.cdf (ProbabilityTheory.gaussianReal 0 1) z

/-- helper.py lines 143–144: `norm.cdf(col) * 200 - 100`. -/
noncomputable def rescaleCdf (z : ℝ) : ℝ := stdNormalCdf z * 200 - 100

/-- A raw (never-NaN) float column holding the exact values of `l`. -/
noncomputable def rawCol (l : List ℚ) : List (Option ℝ) :=
  l.map (fun x : ℚ => some (x : ℝ))

/-- A pandas comparison of two possibly-NaN cells: any comparison involving
NaN is `false`. -/
def optLt {K : Type} [LinearOrder K] : Option K → Option K → Bool
  | some a, some b => decide (a < b)
  | _, _ => false

/-- The value the `Crossover` column receives at one row.  helper.py first
writes `1` on the bullish mask, then `-1` on the bearish mask, so a bearish
mark would overwrite a bullish one; the conditions use the current row
(`m`, `s`) and the `shift()`-ed previous row (`pm`, `ps`). -/
def crossRowVal {K : Type} [LinearOrder K] (bt brt : K) (pm ps m s : Option K) : Int :=
  if optLt m s && optLt ps pm && optLt (some brt) s then -1
  else if optLt s m && optLt pm ps && optLt s (some bt) then 1
  else 0

/-- Row-by-row evaluation of the two masks of `find_crossovers`, carrying the
previous row's MACD and signal cells (`none` before the first row, as produced
by `shift()`). -/
def crossAux {K : Type} [LinearOrder K] (bt brt : K) :
    Option K → Option K → List (Option K) → List (Option K) → List Int
  | _, _, [], _ => []
  | _, _, _ :: _, [] => []
  | pm, ps, m :: ms, s :: ss =>
      crossRowVal bt brt pm ps m s :: crossAux bt brt m s ms ss

/-- The `Crossover` column of helper.py lines 169–190: initialized to `0`,
then the bullish mask is set to `1` and the bearish mask to `-1`. -/
def findCrossoversCol {K : Type} [LinearOrder K]
    (macd signal : List (Option K)) (bt brt : K) : List Int :=
  crossAux bt brt none none macd signal

/-- The dataframe: the downloaded price-bar columns plus the derived columns
the helpers write in place (empty before they run). -/
structure DataFrame where
  index : List ℤ
  open_ : List ℚ
  high : List ℚ
  low : List ℚ
  close : List ℚ
  volume : List ℚ
  macd : List (Option ℝ) := []
  signal_line : List (Option ℝ) := []
  crossover : List Int := []

/-- helper.py `calculate_macd`: each of the three `ewm` calls validates
`span ≥ 1` (pandas raises `ValueError` otherwise); then the `MACD` and
`Signal_Line` columns are assigned in place. -/
noncomputable def calculate_macd (data : DataFrame) (sw lw sg : ℕ) :
    Except PyError DataFrame :=
  if 1 ≤ sw ∧ 1 ≤ lw ∧ 1 ≤ sg then
    .ok { data with
          macd := rawCol (macdCore data.close sw lw),
          signal_line := rawCol (signalCore (macdCore data.close sw lw) sg) }
  else .error .valueError

/-- helper.py `calculate_normalized_macd`: as `calculate_macd`, then each of
the two columns is replaced by its own z-scores (lines 87–92). -/
noncomputable def calculate_normalized_macd (data : DataFrame) (sw lw sg : ℕ) :
    Except PyError DataFrame :=
  if 1 ≤ sw ∧ 1 ≤ lw ∧ 1 ≤ sg then
    .ok { data with
          macd := zscoreCol (macdCore data.close sw lw),
          signal_line := zscoreCol (signalCore (macdCore data.close sw lw) sg) }
  else .error .valueError

/-- helper.py `calculate_percentile_macd`: as `calculate_normalized_macd`,
then `norm.cdf(col) * 200 - 100` is applied cellwise (`norm.cdf(NaN) = NaN`). -/
noncomputable def calculate_percentile_macd (data : DataFrame) (sw lw sg : ℕ) :
    Except PyError DataFrame :=
  if 1 ≤ sw ∧ 1 ≤ lw ∧ 1 ≤ sg then
    .ok { data with
          macd := (zscoreCol (macdCore data.close sw lw)).map (Option.map rescaleCdf),
          signal_line :=
            (zscoreCol (signalCore (macdCore data.close sw lw) sg)).map
              (Option.map rescaleCdf) }
  else .error .valueError

/-- helper.py `find_crossovers`: writes the `Crossover` column in place from
the `MACD` and `Signal_Line` columns and the two thresholds; raises nothing. -/
noncomputable def find_crossovers (df : DataFrame)
    (bullish_threshold bearish_threshold : ℝ) : DataFrame :=
  { df with crossover :=
      findCrossoversCol df.macd df.signal_line bullish_threshold bearish_threshold }

/-- The three rescaling policies of the spec, i.e. the three branches of the
`option` dispatch in app.py lines 64–76 (`Original` / `Normalization` /
`Percentile`). -/
inductive RescalingPolicy where
  | raw : RescalingPolicy
  | standardized : RescalingPolicy
  | percentileRescaled : RescalingPolicy

/-- The policy dispatch of app.py lines 64–76. -/
noncomputable def compute (data : DataFrame) (sw lw sg : ℕ) :
    RescalingPolicy → Except PyError DataFrame
  | .raw => calculate_macd data sw lw sg
  | .standardized => calculate_normalized_macd data sw lw sg
  | .percentileRescaled => calculate_percentile_macd data sw lw sg

/-- app.py lines 64–77: compute under the selected policy, then
`find_crossovers` with the two threshold sliders. -/
noncomputable def pipeline (data : DataFrame) (sw lw sg : ℕ)
    (policy : RescalingPolicy) (bt brt : ℝ) : Except PyError DataFrame :=
  (compute data sw lw sg policy).map (fun d => find_crossovers d bt brt)

/-- Modelled from the spec: the recursive "no-adjustment" EMA contract of
§4.1 — output aligned with the input, first value equal to the first input,
and each subsequent value `α * x[i] + (1 - α) * ema[i-1]` with
`α = 2/(span+1)`.  Entries are read with `getD` (default `0`); together with
the length equation this pins down every in-range entry. -/
def IsEmaSpec (span : ℕ) (xs ys : List ℚ) : Prop :=
  ys.length = xs.length ∧
  (0 < xs.length → ys.getD 0 0 = xs.getD 0 0) ∧
  ∀ i : ℕ, i + 1 < xs.length →
    ys.getD (i + 1) 0
      = alphaOf span * xs.getD (i + 1) 0 + (1 - alphaOf span) * ys.getD i 0

/-- `Series.mean()` over a real column. -/
noncomputable def meanR (l : List ℝ) : ℝ := l.sum / l.length

/-- `Series.var()` (`ddof = 1`) over a real column. -/
noncomputable def svarR (l : List ℝ) : ℝ :=
  if l.length < 2 then 0
  else (l.map (fun x => (x - meanR l) ^ 2)).sum / ((l.length : ℝ) - 1)

/-- `Series.std()` over a real column. -/
noncomputable def stdR (l : List ℝ) : ℝ := Real.sqrt (svarR l)

/-- A five-row dataframe used as concrete input: Close is the start of the
spec's §8 fixture `[10, 10, 10, 20, 20, ...]`. -/
def data₀ : DataFrame :=
  { index := [0, 1, 2, 3, 4]
    open_ := [10, 10, 10, 20, 20]
    high := [11, 11, 11, 21, 21]
    low := [9, 9, 9, 19, 19]
    close := [10, 10, 10, 20, 20]
    volume := [100, 100, 100, 100, 100] }

/-- A three-row dataframe with constant Close, whose MACD and signal series
are constant zero: the degenerate (zero-variance) input. -/
def dataConst : DataFrame :=
  { index := [0, 1, 2]
    open_ := [5, 5, 5]
    high := [5, 5, 5]
    low := [5, 5, 5]
    close := [5, 5, 5]
    volume := [10, 10, 10] }

/-- The empty dataframe: zero-length price series. -/
def dataEmpty : DataFrame :=
  { index := [], open_ := [], high := [], low := [], close := [], volume := [] }

/-- A three-row dataframe with non-constant Close, whose derived MACD and
signal series have nonzero sample variance. -/
def data₁ : DataFrame :=
  { index := [0, 1, 2]
    open_ := [1, 2, 4]
    high := [2, 3, 5]
    low := [1, 1, 3]
    close := [1, 2, 4]
    volume := [10, 10, 10] }

/-- The dataframe produced by the Standardized (and PercentileRescaled) policy
on `dataConst`: both derived columns are all-NaN. -/
noncomputable def dataConstNan : DataFrame :=
  { dataConst with macd := [none, none, none], signal_line := [none, none, none] }

/-! ## Lemmas about the EMA recursion -/

theorem ewmAux_length (a p : ℚ) (xs : List ℚ) : (ewmAux a p xs).length = xs.length := by
  induction xs generalizing p with
  | nil => rfl
  | cons x xs ih => simp [ewmAux, ih]

theorem ewm_length (a : ℚ) (xs : List ℚ) : (ewm a xs).length = xs.length := by
  cases xs with
  | nil => rfl
  | cons x xs => simp [ewm, ewmAux_length]

theorem ewmAux_getD_step (a : ℚ) :
    ∀ (xs : List ℚ) (p : ℚ) (i : ℕ), i + 1 < xs.length →
      (ewmAux a p xs).getD (i + 1) 0
        = a * xs.getD (i + 1) 0 + (1 - a) * (ewmAux a p xs).getD i 0 := by
  intro xs
  induction xs with
  | nil => intro p i h; simp at h
  | cons x xs ih =>
      intro p i h
      cases i with
      | zero =>
          cases xs with
          | nil => simp at h
          | cons x2 xs2 => simp [ewmAux]
      | succ j =>
          have hj : j + 1 < xs.length := by
            simpa using Nat.lt_of_succ_lt_succ h
          simpa [ewmAux] using ih (a * x + (1 - a) * p) j hj

theorem ewm_getD_zero (a : ℚ) (xs : List ℚ) (h : 0 < xs.length) :
    (ewm a xs).getD 0 0 = xs.getD 0 0 := by
  cases xs with
  | nil => simp at h
  | cons x xs => rfl

theorem ewm_getD_step (a : ℚ) (xs : List ℚ) (i : ℕ) (h : i + 1 < xs.length) :
    (ewm a xs).getD (i + 1) 0
      = a * xs.getD (i + 1) 0 + (1 - a) * (ewm a xs).getD i 0 := by
  cases xs with
  | nil => simp at h
  | cons x xs =>
      cases i with
      | zero =>
          cases xs with
          | nil => simp at h
          | cons x2 xs2 => simp [ewm, ewmAux]
      | succ j =>
          have hj : j + 1 < xs.length := by
            simpa using Nat.lt_of_succ_lt_succ h
          simpa [ewm] using ewmAux_getD_step a xs x j hj

theorem ewm_isEmaSpec (span : ℕ) (xs : List ℚ) :
    IsEmaSpec span xs (ewm (alphaOf span) xs) :=
  ⟨ewm_length _ _, fun h => ewm_getD_zero _ _ h, fun i h => ewm_getD_step _ _ i h⟩

theorem macdCore_length (close : List ℚ) (sw lw : ℕ) :
    (macdCore close sw lw).length = close.length := by
  simp [macdCore, ewm_length]

theorem macdCore_getD (close : List ℚ) (sw lw : ℕ) (i : ℕ) (h : i < close.length) :
    (macdCore close sw lw).getD i 0
      = (ewm (alphaOf sw) close).getD i 0 - (ewm (alphaOf lw) close).getD i 0 := by
  have hm : i < (macdCore close sw lw).length := by
    rw [macdCore_length]; exact h
  have hs : i < (ewm (alphaOf sw) close).length := by
    rw [ewm_length]; exact h
  have hl : i < (ewm (alphaOf lw) close).length := by
    rw [ewm_length]; exact h
  rw [List.getD_eq_getElem _ _ hm, List.getD_eq_getElem _ _ hs,
    List.getD_eq_getElem _ _ hl]
  simp [macdCore]

/-- Claim C2: under the Raw policy and valid spans, `calculate_macd` writes
exactly `rawCol (macdCore close)` and `rawCol (signalCore (macdCore close))`
into the dataframe, and these series satisfy the spec's recursive
no-adjustment EMA contract: the two EMAs of Close follow the recursion with
`α = 2/(span+1)`, `macd[i] = shortEMA[i] - longEMA[i]` pointwise, and the
signal line is the EMA of the MACD series with the signal span. -/
theorem raw_compute_follows_ema_recursion (data : DataFrame) (sw lw sg : ℕ)
    (hsw : 1 ≤ sw) (hlw : 1 ≤ lw) (hsg : 1 ≤ sg) (hne : data.close ≠ []) :
    (calculate_macd data sw lw sg).map (fun d => (d.macd, d.signal_line))
      = .ok (rawCol (macdCore data.close sw lw),
             rawCol (signalCore (macdCore data.close sw lw) sg)) ∧
    (macdCore data.close sw lw).length = data.close.length ∧
    (∀ i : ℕ, i < data.close.length →
      (macdCore data.close sw lw).getD i 0
        = (ewm (alphaOf sw) data.close).getD i 0
          - (ewm (alphaOf lw) data.close).getD i 0) ∧
    IsEmaSpec sw data.close (ewm (alphaOf sw) data.close) ∧
    IsEmaSpec lw data.close (ewm (alphaOf lw) data.close) ∧
    IsEmaSpec sg (macdCore data.close sw lw)
      (signalCore (macdCore data.close sw lw) sg) := by
  refine ⟨?_, macdCore_length _ _ _, fun i h => macdCore_getD _ _ _ i h,
    ewm_isEmaSpec sw _, ewm_isEmaSpec lw _, ewm_isEmaSpec sg _⟩
  rw [calculate_macd, if_pos ⟨hsw, hlw, hsg⟩]
  rfl

/-- Concrete instance of `raw_compute_follows_ema_recursion` on the five-row
fixture with spans 2, 4, 2. -/
theorem raw_compute_follows_ema_recursion_witness :
    (calculate_macd data₀ 2 4 2).map (fun d => (d.macd, d.signal_line))
      = .ok (rawCol (macdCore data₀.close 2 4),
             rawCol (signalCore (macdCore data₀.close 2 4) 2)) ∧
    (macdCore data₀.close 2 4).length = data₀.close.length ∧
    (∀ i : ℕ, i < data₀.close.length →
      (macdCore data₀.close 2 4).getD i 0
        = (ewm (alphaOf 2) data₀.close).getD i 0
          - (ewm (alphaOf 4) data₀.close).getD i 0) ∧
    IsEmaSpec 2 data₀.close (ewm (alphaOf 2) data₀.close) ∧
    IsEmaSpec 4 data₀.close (ewm (alphaOf 4) data₀.close) ∧
    IsEmaSpec 2 (macdCore data₀.close 2 4)
      (signalCore (macdCore data₀.close 2 4) 2) :=
  raw_compute_follows_ema_recursion data₀ 2 4 2 (by decide) (by decide)
    (by decide) (by decide)

/-! ## Lemmas about the crossover detector -/

@[simp] theorem optLt_some_some {K : Type} [LinearOrder K] (a b : K) :
    optLt (some a) (some b) = decide (a < b) := rfl

@[simp] theorem optLt_none_left {K : Type} [LinearOrder K] (b : Option K) :
    optLt none b = false := by
  cases b <;> rfl

@[simp] theorem optLt_none_right {K : Type} [LinearOrder K] (a : Option K) :
    optLt a none = false := by
  cases a <;> rfl

theorem crossAux_length {K : Type} [LinearOrder K] (bt brt : K) :
    ∀ (ms ss : List (Option K)) (pm ps : Option K),
      (crossAux bt brt pm ps ms ss).length = min ms.length ss.length := by
  intro ms
  induction ms with
  | nil => intro ss pm ps; simp [crossAux]
  | cons m ms ih =>
      intro ss pm ps
      cases ss with
      | nil => simp [crossAux]
      | cons s ss => simp [crossAux, ih, Nat.succ_min_succ]

theorem crossRowVal_no_prev {K : Type} [LinearOrder K] (bt brt : K) (m s : Option K) :
    crossRowVal bt brt none none m s = 0 := by
  simp [crossRowVal]

theorem crossRowVal_some (bt brt pm ps m s : ℚ) :
    crossRowVal bt brt (some pm) (some ps) (some m) (some s)
      = if m < s ∧ ps < pm ∧ brt < s then -1
        else if s < m ∧ pm < ps ∧ s < bt then 1
        else 0 := by
  simp [crossRowVal, Bool.and_eq_true, decide_eq_true_eq, and_assoc]

theorem crossRowVal_eq_one_iff (bt brt pm ps m s : ℚ) :
    crossRowVal bt brt (some pm) (some ps) (some m) (some s) = 1
      ↔ (s < m ∧ pm < ps ∧ s < bt) := by
  rw [crossRowVal_some]
  split_ifs with h1 h2
  · simp only [show ((-1 : Int) = 1) = False by simp, false_iff]
    rintro ⟨a, -, -⟩
    exact lt_asymm h1.1 a
  · simp [h2]
  · simp [h2]

theorem crossRowVal_eq_neg_one_iff (bt brt pm ps m s : ℚ) :
    crossRowVal bt brt (some pm) (some ps) (some m) (some s) = -1
      ↔ (m < s ∧ ps < pm ∧ brt < s) := by
  rw [crossRowVal_some]
  split_ifs with h1 h2
  · simp [h1]
  · simp [h1]
  · simp [h1]

theorem crossRowVal_eq_zero_iff (bt brt pm ps m s : ℚ) :
    crossRowVal bt brt (some pm) (some ps) (some m) (some s) = 0
      ↔ (¬(s < m ∧ pm < ps ∧ s < bt) ∧ ¬(m < s ∧ ps < pm ∧ brt < s)) := by
  rw [crossRowVal_some]
  split_ifs with h1 h2
  · simp [h1]
  · simp [h2]
  · simp [h1, h2]

theorem crossAux_map_some_getD_succ (bt brt : ℚ) :
    ∀ (ms ss : List ℚ) (pm ps : Option ℚ) (i : ℕ),
      i + 1 < ms.length → i + 1 < ss.length →
      (crossAux bt brt pm ps (ms.map some) (ss.map some)).getD (i + 1) 0
        = crossRowVal bt brt (some (ms.getD i 0)) (some (ss.getD i 0))
            (some (ms.getD (i + 1) 0)) (some (ss.getD (i + 1) 0)) := by
  intro ms
  induction ms with
  | nil => intro ss pm ps i h1 h2; simp at h1
  | cons m ms ih =>
      intro ss pm ps i h1 h2
      cases ss with
      | nil => simp at h2
      | cons s ss =>
          cases i with
          | zero =>
              cases ms with
              | nil => simp at h1
              | cons m2 ms2 =>
                  cases ss with
                  | nil => simp at h2
                  | cons s2 ss2 => simp [crossAux]
          | succ j =>
              have h1' : j + 1 < ms.length := by
                simpa using Nat.lt_of_succ_lt_succ h1
              have h2' : j + 1 < ss.length := by
                simpa using Nat.lt_of_succ_lt_succ h2
              simpa [crossAux] using ih ss (some m) (some s) j h1' h2'

/-- Claim C1: on aligned numeric (never-NaN) MACD and signal series and any
two thresholds, the `Crossover` column marks row `i ≥ 1` with `1` iff
`macd[i] > signal[i]`, `macd[i-1] < signal[i-1]` and `signal[i] < bt`, with
`-1` iff `macd[i] < signal[i]`, `macd[i-1] > signal[i-1]` and
`signal[i] > brt`, and with `0` otherwise; all inequalities are strict, the
two conditions are mutually exclusive, and row 0 is always `0`. -/
theorem find_crossovers_detect_spec (macd signal : List ℚ) (bt brt : ℚ)
    (hlen : macd.length = signal.length) :
    (findCrossoversCol (macd.map some) (signal.map some) bt brt).length
      = macd.length ∧
    (0 < macd.length →
      (findCrossoversCol (macd.map some) (signal.map some) bt brt).getD 0 0 = 0) ∧
    ∀ i : ℕ, i + 1 < macd.length →
      ((findCrossoversCol (macd.map some) (signal.map some) bt brt).getD (i + 1) 0 = 1
        ↔ (signal.getD (i + 1) 0 < macd.getD (i + 1) 0
            ∧ macd.getD i 0 < signal.getD i 0
            ∧ signal.getD (i + 1) 0 < bt)) ∧
      ((findCrossoversCol (macd.map some) (signal.map some) bt brt).getD (i + 1) 0 = -1
        ↔ (macd.getD (i + 1) 0 < signal.getD (i + 1) 0
            ∧ signal.getD i 0 < macd.getD i 0
            ∧ brt < signal.getD (i + 1) 0)) ∧
      ((findCrossoversCol (macd.map some) (signal.map some) bt brt).getD (i + 1) 0 = 0
        ↔ (¬(signal.getD (i + 1) 0 < macd.getD (i + 1) 0
            ∧ macd.getD i 0 < signal.getD i 0
            ∧ signal.getD (i + 1) 0 < bt)
          ∧ ¬(macd.getD (i + 1) 0 < signal.getD (i + 1) 0
            ∧ signal.getD i 0 < macd.getD i 0
            ∧ brt < signal.getD (i + 1) 0))) ∧
      ¬((signal.getD (i + 1) 0 < macd.getD (i + 1) 0
            ∧ macd.getD i 0 < signal.getD i 0
            ∧ signal.getD (i + 1) 0 < bt)
        ∧ (macd.getD (i + 1) 0 < signal.getD (i + 1) 0
            ∧ signal.getD i 0 < macd.getD i 0
            ∧ brt < signal.getD (i + 1) 0)) := by
  refine ⟨?_, ?_, ?_⟩
  · rw [findCrossoversCol, crossAux_length]
    simp [hlen]
  · intro h
    cases macd with
    | nil => simp at h
    | cons m ms =>
        cases signal with
        | nil => simp at hlen
        | cons s ss => simpa [findCrossoversCol, crossAux] using
            crossRowVal_no_prev bt brt (some m) (some s)
  · intro i hi
    have hi' : i + 1 < signal.length := hlen ▸ hi
    rw [findCrossoversCol, crossAux_map_some_getD_succ bt brt macd signal none none i hi hi',
      crossRowVal_eq_one_iff, crossRowVal_eq_neg_one_iff, crossRowVal_eq_zero_iff]
    refine ⟨Iff.rfl, Iff.rfl, Iff.rfl, ?_⟩
    rintro ⟨⟨a, -, -⟩, ⟨b, -, -⟩⟩
    exact lt_asymm a b

/-- Concrete instance of `find_crossovers_detect_spec`: MACD `[0, 2]`,
signal `[1, 1]`, thresholds `100` and `-100`. -/
theorem find_crossovers_detect_spec_witness :
    ([(0 : ℚ), 2].length = [(1 : ℚ), 1].length) ∧
    ((findCrossoversCol ([(0 : ℚ), 2].map some) ([(1 : ℚ), 1].map some) 100 (-100)).length
      = [(0 : ℚ), 2].length ∧
    (0 < [(0 : ℚ), 2].length →
      (findCrossoversCol ([(0 : ℚ), 2].map some) ([(1 : ℚ), 1].map some) 100 (-100)).getD 0 0
        = 0) ∧
    ∀ i : ℕ, i + 1 < [(0 : ℚ), 2].length →
      ((findCrossoversCol ([(0 : ℚ), 2].map some) ([(1 : ℚ), 1].map some) 100 (-100)).getD
          (i + 1) 0 = 1
        ↔ ([(1 : ℚ), 1].getD (i + 1) 0 < [(0 : ℚ), 2].getD (i + 1) 0
            ∧ [(0 : ℚ), 2].getD i 0 < [(1 : ℚ), 1].getD i 0
            ∧ [(1 : ℚ), 1].getD (i + 1) 0 < 100)) ∧
      ((findCrossoversCol ([(0 : ℚ), 2].map some) ([(1 : ℚ), 1].map some) 100 (-100)).getD
          (i + 1) 0 = -1
        ↔ ([(0 : ℚ), 2].getD (i + 1) 0 < [(1 : ℚ), 1].getD (i + 1) 0
            ∧ [(1 : ℚ), 1].getD i 0 < [(0 : ℚ), 2].getD i 0
            ∧ -100 < [(1 : ℚ), 1].getD (i + 1) 0)) ∧
      ((findCrossoversCol ([(0 : ℚ), 2].map some) ([(1 : ℚ), 1].map some) 100 (-100)).getD
          (i + 1) 0 = 0
        ↔ (¬([(1 : ℚ), 1].getD (i + 1) 0 < [(0 : ℚ), 2].getD (i + 1) 0
            ∧ [(0 : ℚ), 2].getD i 0 < [(1 : ℚ), 1].getD i 0
            ∧ [(1 : ℚ), 1].getD (i + 1) 0 < 100)
          ∧ ¬([(0 : ℚ), 2].getD (i + 1) 0 < [(1 : ℚ), 1].getD (i + 1) 0
            ∧ [(1 : ℚ), 1].getD i 0 < [(0 : ℚ), 2].getD i 0
            ∧ -100 < [(1 : ℚ), 1].getD (i + 1) 0))) ∧
      ¬(([(1 : ℚ), 1].getD (i + 1) 0 < [(0 : ℚ), 2].getD (i + 1) 0
            ∧ [(0 : ℚ), 2].getD i 0 < [(1 : ℚ), 1].getD i 0
            ∧ [(1 : ℚ), 1].getD (i + 1) 0 < 100)
        ∧ ([(0 : ℚ), 2].getD (i + 1) 0 < [(1 : ℚ), 1].getD (i + 1) 0
            ∧ [(1 : ℚ), 1].getD i 0 < [(0 : ℚ), 2].getD i 0
            ∧ -100 < [(1 : ℚ), 1].getD (i + 1) 0))) :=
  ⟨by decide, find_crossovers_detect_spec [0, 2] [1, 1] 100 (-100) (by decide)⟩

/-! ## Import-time failure, window validation, and frame effects -/

/-- Claim C3: the return annotation of `get_fundamentals` calls `tuple` with
three arguments, which raises `TypeError` when the `def` statement is
executed; importing `utils/helper.py` therefore fails, and since `app.py`
star-imports the helper before anything else, every invocation of the program
fails before any computation runs. -/
theorem get_fundamentals_annotation_fails_import :
    get_fundamentals_def = .error .typeError ∧
    import_helper = .error .typeError ∧
    run_app = .error .typeError :=
  ⟨rfl, rfl, rfl⟩

/-- Claim C4 counterexample: `short_window = 1` is below 2, yet
`calculate_macd` accepts it and computes instead of rejecting the input. -/
theorem window_one_accepted : (calculate_macd data₀ 1 26 9).isOk = true := rfl

/-- Claim C4 amended: the code performs no window validation of its own; under
every policy the computation succeeds exactly when every span is at least 1
(the check pandas's `ewm` performs, raising `ValueError` for `span < 1`), so a
window of 1 — below the spec's minimum of 2 — is accepted, and for windows
≥ 2 no validation error occurs regardless of how `shortWindow` and
`longWindow` relate. -/
theorem window_validation_matches_pandas (data : DataFrame) (sw lw sg : ℕ)
    (p : RescalingPolicy) :
    ((compute data sw lw sg p).isOk = true ↔ (1 ≤ sw ∧ 1 ≤ lw ∧ 1 ≤ sg)) ∧
    (compute data sw lw sg p = .error .valueError
      ↔ ¬(1 ≤ sw ∧ 1 ≤ lw ∧ 1 ≤ sg)) := by
  cases p <;>
    refine ⟨?_, ?_⟩ <;>
      simp only [compute, calculate_macd, calculate_normalized_macd,
        calculate_percentile_macd] <;>
      split_ifs with h <;>
      simp [h, Except.isOk, Except.toBool]

theorem rawCol_length (l : List ℚ) : (rawCol l).length = l.length := by
  simp only [rawCol, List.length_map]

theorem zscoreCol_length (l : List ℚ) : (zscoreCol l).length = l.length := by
  rw [zscoreCol]
  split_ifs <;> simp

theorem signalCore_length (l : List ℚ) (sg : ℕ) :
    (signalCore l sg).length = l.length :=
  ewm_length _ _

theorem findCrossoversCol_length {K : Type} [LinearOrder K]
    (macd signal : List (Option K)) (bt brt : K) :
    (findCrossoversCol macd signal bt brt).length = min macd.length signal.length :=
  crossAux_length bt brt macd signal none none

/-- Claim C6: on the zero-length price series every policy's compute step and
the detector return zero-length derived columns and no error. -/
theorem empty_series_zero_length (sw lw sg : ℕ) (p : RescalingPolicy) (bt brt : ℝ)
    (hsw : 1 ≤ sw) (hlw : 1 ≤ lw) (hsg : 1 ≤ sg) :
    pipeline dataEmpty sw lw sg p bt brt = .ok dataEmpty ∧
    (pipeline dataEmpty sw lw sg p bt brt).map
        (fun d => (d.macd, d.signal_line, d.crossover))
      = .ok ([], [], []) := by
  have h : 1 ≤ sw ∧ 1 ≤ lw ∧ 1 ≤ sg := ⟨hsw, hlw, hsg⟩
  constructor <;>
    cases p <;>
      simp [pipeline, compute, calculate_macd, calculate_normalized_macd,
        calculate_percentile_macd, find_crossovers, h, dataEmpty, macdCore,
        ewm, signalCore, zscoreCol, rawCol, svarQ, findCrossoversCol, crossAux,
        Except.map]

/-- Concrete instance of `empty_series_zero_length` with the app's default
spans 12, 26, 9, the Standardized policy and thresholds `10` and `-10`. -/
theorem empty_series_zero_length_witness :
    ((1 : ℕ) ≤ 12 ∧ (1 : ℕ) ≤ 26 ∧ (1 : ℕ) ≤ 9) ∧
    (pipeline dataEmpty 12 26 9 .standardized 10 (-10) = .ok dataEmpty ∧
    (pipeline dataEmpty 12 26 9 .standardized 10 (-10)).map
        (fun d => (d.macd, d.signal_line, d.crossover))
      = .ok ([], [], [])) :=
  ⟨by decide, empty_series_zero_length 12 26 9 .standardized 10 (-10)
    (by decide) (by decide) (by decide)⟩

/-- Claim C9: the pipeline is deterministic and keeps no hidden state: feeding
the dataframe produced by one compute-then-detect run through a second run
with the same parameters returns exactly the first run's output — each run
recomputes `MACD` and `Signal_Line` from `Close` and rewrites `Crossover`. -/
theorem pipeline_idempotent (data : DataFrame) (sw lw sg : ℕ)
    (p : RescalingPolicy) (bt brt : ℝ) :
    (pipeline data sw lw sg p bt brt).bind (fun d => pipeline d sw lw sg p bt brt)
      = pipeline data sw lw sg p bt brt := by
  by_cases h : 1 ≤ sw ∧ 1 ≤ lw ∧ 1 ≤ sg <;>
    cases p <;>
      simp [pipeline, compute, calculate_macd, calculate_normalized_macd,
        calculate_percentile_macd, find_crossovers, h, Except.map, Except.bind,
        Except.pure]

/-- Claim C10: compute-then-detect only writes the derived columns: every
original column (index, Open, High, Low, Close, Volume) comes back unchanged,
and each derived column has exactly one row per Close row. -/
theorem pipeline_frame_effect (data : DataFrame) (sw lw sg : ℕ)
    (p : RescalingPolicy) (bt brt : ℝ)
    (hsw : 1 ≤ sw) (hlw : 1 ≤ lw) (hsg : 1 ≤ sg) :
    (pipeline data sw lw sg p bt brt).map (fun d => d.index) = .ok data.index ∧
    (pipeline data sw lw sg p bt brt).map (fun d => d.open_) = .ok data.open_ ∧
    (pipeline data sw lw sg p bt brt).map (fun d => d.high) = .ok data.high ∧
    (pipeline data sw lw sg p bt brt).map (fun d => d.low) = .ok data.low ∧
    (pipeline data sw lw sg p bt brt).map (fun d => d.close) = .ok data.close ∧
    (pipeline data sw lw sg p bt brt).map (fun d => d.volume) = .ok data.volume ∧
    (pipeline data sw lw sg p bt brt).map (fun d => d.macd.length)
      = .ok data.close.length ∧
    (pipeline data sw lw sg p bt brt).map (fun d => d.signal_line.length)
      = .ok data.close.length ∧
    (pipeline data sw lw sg p bt brt).map (fun d => d.crossover.length)
      = .ok data.close.length := by
  have h : 1 ≤ sw ∧ 1 ≤ lw ∧ 1 ≤ sg := ⟨hsw, hlw, hsg⟩
  cases p <;>
    simp [pipeline, compute, calculate_macd, calculate_normalized_macd,
      calculate_percentile_macd, find_crossovers, h, rawCol_length,
      zscoreCol_length, signalCore_length, findCrossoversCol_length,
      macdCore_length, Except.map]

/-- Concrete instance of `pipeline_frame_effect` on the five-row fixture with
spans 12, 26, 9, the Raw policy and thresholds `10` and `-10`. -/
theorem pipeline_frame_effect_witness :
    ((1 : ℕ) ≤ 12 ∧ (1 : ℕ) ≤ 26 ∧ (1 : ℕ) ≤ 9) ∧
    ((pipeline data₀ 12 26 9 .raw 10 (-10)).map (fun d => d.index)
        = .ok data₀.index ∧
    (pipeline data₀ 12 26 9 .raw 10 (-10)).map (fun d => d.open_)
        = .ok data₀.open_ ∧
    (pipeline data₀ 12 26 9 .raw 10 (-10)).map (fun d => d.high)
        = .ok data₀.high ∧
    (pipeline data₀ 12 26 9 .raw 10 (-10)).map (fun d => d.low)
        = .ok data₀.low ∧
    (pipeline data₀ 12 26 9 .raw 10 (-10)).map (fun d => d.close)
        = .ok data₀.close ∧
    (pipeline data₀ 12 26 9 .raw 10 (-10)).map (fun d => d.volume)
        = .ok data₀.volume ∧
    (pipeline data₀ 12 26 9 .raw 10 (-10)).map (fun d => d.macd.length)
        = .ok data₀.close.length ∧
    (pipeline data₀ 12 26 9 .raw 10 (-10)).map (fun d => d.signal_line.length)
        = .ok data₀.close.length ∧
    (pipeline data₀ 12 26 9 .raw 10 (-10)).map (fun d => d.crossover.length)
        = .ok data₀.close.length) :=
  ⟨by decide, pipeline_frame_effect data₀ 12 26 9 .raw 10 (-10)
    (by decide) (by decide) (by decide)⟩

/-! ## Degenerate (zero-variance) series -/

theorem map_none_eq_replicate {α β : Type} (l : List α) :
    l.map (fun _ => (none : Option β)) = List.replicate l.length none := by
  induction l with
  | nil => rfl
  | cons x xs ih => simp [ih, List.replicate]

theorem macdCore_dataConst : macdCore dataConst.close 12 26 = [0, 0, 0] := by
  norm_num [dataConst, macdCore, ewm, ewmAux, alphaOf, List.zipWith]

theorem signalCore_dataConst :
    signalCore (macdCore dataConst.close 12 26) 9 = [0, 0, 0] := by
  rw [macdCore_dataConst]
  norm_num [signalCore, ewm, ewmAux, alphaOf]

theorem svarQ_macd_dataConst : svarQ (macdCore dataConst.close 12 26) = 0 := by
  rw [macdCore_dataConst]
  norm_num [svarQ, meanQ]

theorem svarQ_signal_dataConst :
    svarQ (signalCore (macdCore dataConst.close 12 26) 9) = 0 := by
  rw [signalCore_dataConst]
  norm_num [svarQ, meanQ]

theorem zscoreCol_macd_dataConst :
    zscoreCol (macdCore dataConst.close 12 26) = [none, none, none] := by
  rw [zscoreCol, if_pos svarQ_macd_dataConst, macdCore_dataConst]
  rfl

theorem zscoreCol_signal_dataConst :
    zscoreCol (signalCore (macdCore dataConst.close 12 26) 9)
      = [none, none, none] := by
  rw [zscoreCol, if_pos svarQ_signal_dataConst, signalCore_dataConst]
  rfl

/-- Claim C5 counterexample: on the constant close series `[5, 5, 5]` the
derived MACD and signal series have zero sample standard deviation, yet
`calculate_normalized_macd` does not signal any error: it returns normally
with every cell of both derived columns NaN. -/
theorem degenerate_series_returns_nan :
    (calculate_normalized_macd dataConst 12 26 9).map
        (fun d => (d.macd, d.signal_line))
      = .ok ([none, none, none], [none, none, none]) := by
  simp [calculate_normalized_macd, zscoreCol_macd_dataConst,
    zscoreCol_signal_dataConst, Except.map]

/-- Claim C5 amended: when the derived MACD and signal-line series have zero
sample variance, the Standardized and PercentileRescaled computations do not
signal any error condition: both return normally, silently filling every cell
of the `MACD` and `Signal_Line` columns with NaN. -/
theorem degenerate_series_silent_nan (data : DataFrame) (sw lw sg : ℕ)
    (hsw : 1 ≤ sw) (hlw : 1 ≤ lw) (hsg : 1 ≤ sg)
    (hm : svarQ (macdCore data.close sw lw) = 0)
    (hs : svarQ (signalCore (macdCore data.close sw lw) sg) = 0) :
    (calculate_normalized_macd data sw lw sg).map
        (fun d => (d.macd, d.signal_line))
      = .ok (List.replicate data.close.length none,
             List.replicate data.close.length none) ∧
    (calculate_percentile_macd data sw lw sg).map
        (fun d => (d.macd, d.signal_line))
      = .ok (List.replicate data.close.length none,
             List.replicate data.close.length none) := by
  have h : 1 ≤ sw ∧ 1 ≤ lw ∧ 1 ≤ sg := ⟨hsw, hlw, hsg⟩
  have hzm : zscoreCol (macdCore data.close sw lw)
      = List.replicate data.close.length none := by
    rw [zscoreCol, if_pos hm, map_none_eq_replicate, macdCore_length]
  have hzs : zscoreCol (signalCore (macdCore data.close sw lw) sg)
      = List.replicate data.close.length none := by
    rw [zscoreCol, if_pos hs, map_none_eq_replicate, signalCore_length,
      macdCore_length]
  constructor <;>
    simp [calculate_normalized_macd, calculate_percentile_macd, h, hzm, hzs,
      Except.map, List.map_replicate]

/-- Concrete instance of `degenerate_series_silent_nan` on the constant-Close
dataframe with the helper's default spans 12, 26, 9. -/
theorem degenerate_series_silent_nan_witness :
    ((1 : ℕ) ≤ 12 ∧ (1 : ℕ) ≤ 26 ∧ (1 : ℕ) ≤ 9
      ∧ svarQ (macdCore dataConst.close 12 26) = 0
      ∧ svarQ (signalCore (macdCore dataConst.close 12 26) 9) = 0) ∧
    ((calculate_normalized_macd dataConst 12 26 9).map
        (fun d => (d.macd, d.signal_line))
      = .ok (List.replicate dataConst.close.length none,
             List.replicate dataConst.close.length none) ∧
    (calculate_percentile_macd dataConst 12 26 9).map
        (fun d => (d.macd, d.signal_line))
      = .ok (List.replicate dataConst.close.length none,
             List.replicate dataConst.close.length none)) :=
  ⟨⟨by decide, by decide, by decide, svarQ_macd_dataConst,
    svarQ_signal_dataConst⟩,
   degenerate_series_silent_nan dataConst 12 26 9 (by decide) (by decide)
    (by decide) svarQ_macd_dataConst svarQ_signal_dataConst⟩

/-! ## Percentile rescaling -/

theorem rescaleCdf_mem_Icc (z : ℝ) : -100 ≤ rescaleCdf z ∧ rescaleCdf z ≤ 100 := by
  have h0 := ProbabilityTheory.cdf_nonneg (ProbabilityTheory.gaussianReal 0 1) z
  have h1 := ProbabilityTheory.cdf_le_one (ProbabilityTheory.gaussianReal 0 1) z
  unfold rescaleCdf stdNormalCdf
  constructor <;> linarith

theorem rescaleCdf_monotone (z₁ z₂ : ℝ) (h : z₁ ≤ z₂) :
    rescaleCdf z₁ ≤ rescaleCdf z₂ := by
  have hc := ProbabilityTheory.monotone_cdf (ProbabilityTheory.gaussianReal 0 1) h
  unfold rescaleCdf stdNormalCdf
  linarith

/-- Claim C7: every numeric value the PercentileRescaled policy writes into
the `MACD` and `Signal_Line` columns lies in `[-100, 100]`; the percentile
columns are exactly the Standardized columns mapped cellwise through
`cdf(z) * 200 - 100` for the standard normal cdf; and that map is monotone,
so a larger z-score yields a larger or equal rescaled value. -/
theorem percentile_range_cdf_monotone (data : DataFrame) (sw lw sg : ℕ)
    (d dz : DataFrame)
    (hp : calculate_percentile_macd data sw lw sg = .ok d)
    (hz : calculate_normalized_macd data sw lw sg = .ok dz) :
    (∀ x : ℝ, some x ∈ d.macd → -100 ≤ x ∧ x ≤ 100) ∧
    (∀ x : ℝ, some x ∈ d.signal_line → -100 ≤ x ∧ x ≤ 100) ∧
    d.macd = dz.macd.map (Option.map rescaleCdf) ∧
    d.signal_line = dz.signal_line.map (Option.map rescaleCdf) ∧
    (∀ z₁ z₂ : ℝ, z₁ ≤ z₂ → rescaleCdf z₁ ≤ rescaleCdf z₂) := by
  by_cases h : 1 ≤ sw ∧ 1 ≤ lw ∧ 1 ≤ sg
  · rw [calculate_percentile_macd, if_pos h] at hp
    rw [calculate_normalized_macd, if_pos h] at hz
    obtain rfl := Except.ok.inj hp
    obtain rfl := Except.ok.inj hz
    refine ⟨?_, ?_, by simp, by simp,
      fun z₁ z₂ hzz => rescaleCdf_monotone z₁ z₂ hzz⟩ <;>
    · intro x hx
      simp only [List.mem_map] at hx
      obtain ⟨o, -, ho⟩ := hx
      cases o with
      | none => simp at ho
      | some z =>
          simp only [Option.map_some', Option.some.injEq] at ho
          exact ho ▸ rescaleCdf_mem_Icc z
  · rw [calculate_percentile_macd, if_neg h] at hp
    exact absurd hp (by simp)

/-- Concrete instance of `percentile_range_cdf_monotone` on the constant-Close
dataframe with spans 12, 26, 9 (both policies produce `dataConstNan`). -/
theorem percentile_range_cdf_monotone_witness :
    (calculate_percentile_macd dataConst 12 26 9 = .ok dataConstNan ∧
     calculate_normalized_macd dataConst 12 26 9 = .ok dataConstNan) ∧
    ((∀ x : ℝ, some x ∈ dataConstNan.macd → -100 ≤ x ∧ x ≤ 100) ∧
     (∀ x : ℝ, some x ∈ dataConstNan.signal_line → -100 ≤ x ∧ x ≤ 100) ∧
     dataConstNan.macd = dataConstNan.macd.map (Option.map rescaleCdf) ∧
     dataConstNan.signal_line
        = dataConstNan.signal_line.map (Option.map rescaleCdf) ∧
     (∀ z₁ z₂ : ℝ, z₁ ≤ z₂ → rescaleCdf z₁ ≤ rescaleCdf z₂)) := by
  have hp : calculate_percentile_macd dataConst 12 26 9 = .ok dataConstNan := by
    rw [calculate_percentile_macd,
      if_pos (by decide : (1 : ℕ) ≤ 12 ∧ (1 : ℕ) ≤ 26 ∧ (1 : ℕ) ≤ 9),
      zscoreCol_macd_dataConst, zscoreCol_signal_dataConst]
    rfl
  have hz : calculate_normalized_macd dataConst 12 26 9 = .ok dataConstNan := by
    rw [calculate_normalized_macd,
      if_pos (by decide : (1 : ℕ) ≤ 12 ∧ (1 : ℕ) ≤ 26 ∧ (1 : ℕ) ≤ 9),
      zscoreCol_macd_dataConst, zscoreCol_signal_dataConst]
    rfl
  exact ⟨⟨hp, hz⟩,
    percentile_range_cdf_monotone dataConst 12 26 9 dataConstNan dataConstNan hp hz⟩

/-! ## Standardized policy: mean 0, standard deviation 1 -/

theorem sum_map_ratCast (l : List ℚ) (g : ℚ → ℚ) :
    (l.map (fun x => ((g x : ℚ) : ℝ))).sum = (((l.map g).sum : ℚ) : ℝ) := by
  induction l with
  | nil => simp
  | cons x xs ih =>
      simp only [List.map_cons, List.sum_cons, ih]
      push_cast
      ring

theorem sum_map_sub_constQ (l : List ℚ) (c : ℚ) :
    (l.map (fun x => x - c)).sum = l.sum - l.length * c := by
  induction l with
  | nil => simp
  | cons x xs ih =>
      simp only [List.map_cons, List.sum_cons, ih, List.length_cons]
      push_cast
      ring

theorem sum_map_mul_const (l : List ℚ) (f : ℚ → ℝ) (c : ℝ) :
    (l.map (fun x => f x * c)).sum = (l.map f).sum * c := by
  induction l with
  | nil => simp
  | cons x xs ih =>
      simp only [List.map_cons, List.sum_cons, ih]
      ring

theorem svarQ_nonneg (l : List ℚ) : 0 ≤ svarQ l := by
  rw [svarQ]
  split_ifs with h
  · exact le_refl 0
  · apply div_nonneg
    · apply List.sum_nonneg
      intro x hx
      rw [List.mem_map] at hx
      obtain ⟨y, -, rfl⟩ := hx
      positivity
    · have h2 : 2 ≤ l.length := le_of_not_lt h
      have h2' : (2 : ℚ) ≤ (l.length : ℚ) := by exact_mod_cast h2
      linarith

theorem length_ge_two_of_svarQ_ne_zero (l : List ℚ) (h : svarQ l ≠ 0) :
    2 ≤ l.length := by
  by_contra hlt
  exact h (by rw [svarQ, if_pos (by omega)])

theorem sum_sq_eq_svarQ_mul (l : List ℚ) (h2 : 2 ≤ l.length) :
    (l.map (fun x => (x - meanQ l) ^ 2)).sum = svarQ l * ((l.length : ℚ) - 1) := by
  have h2' : (2 : ℚ) ≤ (l.length : ℚ) := by exact_mod_cast h2
  have hne : ((l.length : ℚ) - 1) ≠ 0 := by linarith
  rw [svarQ, if_neg (by omega), div_mul_cancel₀ _ hne]

theorem zscoreCol_mean_std (l : List ℚ) (hv : svarQ l ≠ 0) :
    zscoreCol l = ((zscoreCol l).filterMap id).map some ∧
    ((zscoreCol l).filterMap id).length = l.length ∧
    meanR ((zscoreCol l).filterMap id) = 0 ∧
    stdR ((zscoreCol l).filterMap id) = 1 := by
  have h2 : 2 ≤ l.length := length_ge_two_of_svarQ_ne_zero l hv
  have hnQ : (l.length : ℚ) ≠ 0 := by
    have : (2 : ℚ) ≤ (l.length : ℚ) := by exact_mod_cast h2
    linarith
  have hn1R : ((l.length : ℝ) - 1) ≠ 0 := by
    have : (2 : ℝ) ≤ (l.length : ℝ) := by exact_mod_cast h2
    linarith
  have hvpos : (0 : ℝ) < ((svarQ l : ℚ) : ℝ) := by
    have h0 : (0 : ℚ) ≤ svarQ l := svarQ_nonneg l
    have h0' : (0 : ℝ) ≤ ((svarQ l : ℚ) : ℝ) := by exact_mod_cast h0
    have hne : ((svarQ l : ℚ) : ℝ) ≠ 0 := by exact_mod_cast hv
    exact lt_of_le_of_ne h0' (Ne.symm hne)
  set s : ℝ := Real.sqrt ((svarQ l : ℚ) : ℝ) with hsdef
  have hs : 0 < s := Real.sqrt_pos.mpr hvpos
  have hs2 : s ^ 2 = ((svarQ l : ℚ) : ℝ) := Real.sq_sqrt hvpos.le
  have hcol : zscoreCol l
      = (l.map (fun x : ℚ => ((x - meanQ l : ℚ) : ℝ) / s)).map some := by
    rw [zscoreCol, if_neg hv, List.map_map]
    rfl
  set zs : List ℝ := l.map (fun x : ℚ => ((x - meanQ l : ℚ) : ℝ) / s) with hzsdef
  have hfm : (zscoreCol l).filterMap id = zs := by
    rw [hcol]
    simp
  have hlen : zs.length = l.length := by
    rw [hzsdef, List.length_map]
  have hdiv : (fun x : ℚ => ((x - meanQ l : ℚ) : ℝ) / s)
      = fun x : ℚ => ((x - meanQ l : ℚ) : ℝ) * s⁻¹ := by
    funext x
    rw [div_eq_mul_inv]
  have hsum : zs.sum = 0 := by
    rw [hzsdef, hdiv, sum_map_mul_const, sum_map_ratCast l (fun x => x - meanQ l)]
    have e2 : (l.map (fun x => x - meanQ l)).sum = 0 := by
      rw [sum_map_sub_constQ, meanQ]
      field_simp
    rw [e2]
    simp
  have hmean : meanR zs = 0 := by
    rw [meanR, hsum, zero_div]
  have hsq : (zs.map (fun z => z ^ 2)).sum
      = ((svarQ l : ℚ) : ℝ) * ((l.length : ℝ) - 1) * (s ^ 2)⁻¹ := by
    rw [hzsdef, List.map_map]
    have e1 : ((fun z : ℝ => z ^ 2) ∘ fun x : ℚ => ((x - meanQ l : ℚ) : ℝ) / s)
        = fun x : ℚ => (((x - meanQ l) ^ 2 : ℚ) : ℝ) * (s ^ 2)⁻¹ := by
      funext x
      simp only [Function.comp_apply, div_pow, div_eq_mul_inv]
      push_cast
      ring
    rw [e1, sum_map_mul_const, sum_map_ratCast l (fun x => (x - meanQ l) ^ 2),
      sum_sq_eq_svarQ_mul l h2]
    push_cast
    ring
  have hvar : svarR zs = 1 := by
    rw [svarR, if_neg (by omega : ¬zs.length < 2), hmean]
    simp only [sub_zero]
    rw [hsq, hlen, hs2]
    field_simp
  refine ⟨by rw [hfm]; exact hcol, by rw [hfm]; exact hlen,
    by rw [hfm]; exact hmean, ?_⟩
  rw [hfm, stdR, hvar]
  exact Real.sqrt_one

theorem macdCore_data₁ : macdCore data₁.close 2 4 = [0, 4/15, 176/225] := by
  norm_num [data₁, macdCore, ewm, ewmAux, alphaOf, List.zipWith]

theorem signalCore_data₁ :
    signalCore (macdCore data₁.close 2 4) 2 = [0, 8/45, 392/675] := by
  rw [macdCore_data₁]
  norm_num [signalCore, ewm, ewmAux, alphaOf]

theorem svarQ_macd_data₁ : svarQ (macdCore data₁.close 2 4) ≠ 0 := by
  rw [macdCore_data₁]
  norm_num [svarQ, meanQ]

theorem svarQ_signal_data₁ :
    svarQ (signalCore (macdCore data₁.close 2 4) 2) ≠ 0 := by
  rw [signalCore_data₁]
  norm_num [svarQ, meanQ]

/-- Claim C8: when the derived MACD and signal-line series each have nonzero
sample variance, the Standardized policy writes the two z-score columns, every
cell of which is a number (no NaN), and each column independently has sample
mean 0 and sample standard deviation 1. -/
theorem standardized_mean_zero_std_one (data : DataFrame) (sw lw sg : ℕ)
    (hsw : 1 ≤ sw) (hlw : 1 ≤ lw) (hsg : 1 ≤ sg)
    (hm : svarQ (macdCore data.close sw lw) ≠ 0)
    (hs : svarQ (signalCore (macdCore data.close sw lw) sg) ≠ 0) :
    (calculate_normalized_macd data sw lw sg).map
        (fun d => (d.macd, d.signal_line))
      = .ok (zscoreCol (macdCore data.close sw lw),
             zscoreCol (signalCore (macdCore data.close sw lw) sg)) ∧
    zscoreCol (macdCore data.close sw lw)
      = ((zscoreCol (macdCore data.close sw lw)).filterMap id).map some ∧
    meanR ((zscoreCol (macdCore data.close sw lw)).filterMap id) = 0 ∧
    stdR ((zscoreCol (macdCore data.close sw lw)).filterMap id) = 1 ∧
    zscoreCol (signalCore (macdCore data.close sw lw) sg)
      = ((zscoreCol (signalCore (macdCore data.close sw lw) sg)).filterMap
          id).map some ∧
    meanR ((zscoreCol (signalCore (macdCore data.close sw lw) sg)).filterMap
        id) = 0 ∧
    stdR ((zscoreCol (signalCore (macdCore data.close sw lw) sg)).filterMap
        id) = 1 := by
  obtain ⟨hc1, -, hc3, hc4⟩ := zscoreCol_mean_std _ hm
  obtain ⟨hd1, -, hd3, hd4⟩ := zscoreCol_mean_std _ hs
  refine ⟨?_, hc1, hc3, hc4, hd1, hd3, hd4⟩
  rw [calculate_normalized_macd, if_pos ⟨hsw, hlw, hsg⟩]
  rfl

/-- Concrete instance of `standardized_mean_zero_std_one` on the three-row
dataframe with Close `[1, 2, 4]` and spans 2, 4, 2. -/
theorem standardized_mean_zero_std_one_witness :
    ((1 : ℕ) ≤ 2 ∧ (1 : ℕ) ≤ 4 ∧ (1 : ℕ) ≤ 2
      ∧ svarQ (macdCore data₁.close 2 4) ≠ 0
      ∧ svarQ (signalCore (macdCore data₁.close 2 4) 2) ≠ 0) ∧
    ((calculate_normalized_macd data₁ 2 4 2).map
        (fun d => (d.macd, d.signal_line))
      = .ok (zscoreCol (macdCore data₁.close 2 4),
             zscoreCol (signalCore (macdCore data₁.close 2 4) 2)) ∧
    zscoreCol (macdCore data₁.close 2 4)
      = ((zscoreCol (macdCore data₁.close 2 4)).filterMap id).map some ∧
    meanR ((zscoreCol (macdCore data₁.close 2 4)).filterMap id) = 0 ∧
    stdR ((zscoreCol (macdCore data₁.close 2 4)).filterMap id) = 1 ∧
    zscoreCol (signalCore (macdCore data₁.close 2 4) 2)
      = ((zscoreCol (signalCore (macdCore data₁.close 2 4) 2)).filterMap
          id).map some ∧
    meanR ((zscoreCol (signalCore (macdCore data₁.close 2 4) 2)).filterMap
        id) = 0 ∧
    stdR ((zscoreCol (signalCore (macdCore data₁.close 2 4) 2)).filterMap
        id) = 1) :=
  ⟨⟨by decide, by decide, by decide, svarQ_macd_data₁, svarQ_signal_data₁⟩,
   standardized_mean_zero_std_one data₁ 2 4 2 (by decide) (by decide)
    (by decide) svarQ_macd_data₁ svarQ_signal_data₁⟩
